import Mathlib

/-!
Verification of the behavioral intrusion-detection engine of the
MachineLearning-Project-Final repository, against its natural-language
specification.

The development shallowly embeds the Python sources:

* `port_scan_detector.py` — `PortScanDetector` (windowed per-source tracker
  and the seven-pattern signature engine);
* `cyber_sentinel_mod.py` — `CyberSentinelMod.analyze_packet` (fusion of the
  classifier verdict with the behavioral and heuristic detectors) and
  `_get_severity_from_attack_type`;
* `model_server.py` — `ModelServer._process_request` (request dispatch and
  the feedback buffer);
* `app.py` — `add_threat_detection` (alert rate-limiting / deduplication);
* `attack_categories.py` — the attack-subcategory registry and
  `AutomaticDetector`.

Timestamps, durations and confidences are modelled as rationals (`ℚ`);
Python `float` arithmetic on the small decimal constants involved is exact,
so no rounding is modelled.  Strings are modelled as Lean `String`s
(all labels involved are ASCII, so Python `.upper()`/`.lower()` are modelled
by ASCII-only case conversion).
-/

/-! ## String helpers

Python's substring test (`"x" in s`) and `'-'.join`, used by
`PortScanDetector._parse_tcp_flags` and `_identify_stealth_scan_type`. -/

/-- Does the character list `l` start with the character list `pat`? -/
def charsStartWith : List Char → List Char → Bool
  | [], _ => true
  | _ :: _, [] => false
  | p :: ps, c :: cs => p = c && charsStartWith ps cs

/-- Python substring test on character lists: `pat` occurs somewhere in `l`. -/
def charsContain (pat : List Char) : List Char → Bool
  | [] => pat.isEmpty
  | c :: cs => charsStartWith pat (c :: cs) || charsContain pat cs

/-- Python `pat in s` (substring containment). -/
def strContains (s pat : String) : Bool :=
  charsContain pat.toList s.toList

/-! ## ASCII case conversion

Python's `str.lower()`/`str.upper()` restricted to ASCII, which covers every
string this system case-converts (protocol names and attack labels).  Lean's
`String.toLower` is implemented by position-based recursion that the kernel
cannot evaluate, so a list-based equivalent is used. -/

/-- ASCII lowercase of one character. -/
def asciiLowerChar (c : Char) : Char :=
  if 65 <= c.toNat && c.toNat <= 90 then Char.ofNat (c.toNat + 32) else c

/-- ASCII uppercase of one character. -/
def asciiUpperChar (c : Char) : Char :=
  if 97 <= c.toNat && c.toNat <= 122 then Char.ofNat (c.toNat - 32) else c

/-- Python `s.lower()` on ASCII data. -/
def strLower (s : String) : String :=
  String.mk (s.toList.map asciiLowerChar)

/-- Python `s.upper()` on ASCII data. -/
def strUpper (s : String) : String :=
  String.mk (s.toList.map asciiUpperChar)

/-! ## PortScanDetector: data model

`port_scan_detector.py`, `PortScanDetector.__init__` (lines 18–37).
`ip_tracking` maps each source address to a per-source record; the claims
under verification are all per-source, so the embedding works directly on
one source's record (`SourceState`); the `defaultdict` lookup/update of
`ip_tracking[srcip]` is the trivial map operation around it.
The `connection_attempts` deque is allocated but never read or written by
any method, so it is not modelled. -/

/-- Detector configuration: `window_size` (seconds, default 60) and
`threshold_ports` (default 10).  `threshold_connections` is never used by
`detect_port_scan` and is not modelled. -/
structure Config where
  windowSize : ℚ
  thresholdPorts : Nat
deriving DecidableEq

/-- The defaults of `PortScanDetector.__init__`. -/
def defaultConfig : Config := ⟨60, 10⟩

/-- Per-source tracking record (`ip_tracking[srcip]`): the set of unique
destination ports (modelled as a duplicate-free list), and the three
parallel deques of timestamps, flag labels and protocol labels. -/
structure SourceState where
  ports : List Nat
  timestamps : List ℚ
  flags : List String
  protocols : List String
deriving DecidableEq

/-- The `defaultdict` initial value: all containers empty. -/
def emptySourceState : SourceState := ⟨[], [], [], []⟩

/-- A packet's TCP-flags field may arrive as an integer bitmask or as an
already-parsed string (`_parse_tcp_flags` accepts both). -/
inductive FlagVal where
  | num (n : Nat)
  | str (s : String)
deriving DecidableEq

/-- The packet fields consumed by `detect_port_scan` (via
`extract_port_scan_features`): source/destination address, destination
port, protocol, TCP flags and timestamp.  Fields that the detection logic
never reads (src_port, packet_size, duration, is_fragmented) are omitted. -/
structure Packet where
  srcip : String
  dstip : String
  dstPort : Nat
  protocol : String
  flags : FlagVal
  timestamp : ℚ
deriving DecidableEq

/-! ## `_parse_tcp_flags` (lines 280–312) -/

/-- Flag-bit dictionary of `_parse_tcp_flags`, in insertion order. -/
def parseFlagMap : List (Nat × String) :=
  [(1, "FIN"), (2, "SYN"), (4, "RST"), (8, "PSH"), (16, "ACK"), (32, "URG")]

/-- `_parse_tcp_flags`: a string is returned as-is; an integer bitmask is
rendered as the dash-joined names of its set bits, with the special cases
for XMAS (`FIN`+`PSH`+`URG` present), `SYN` → `S`, `FIN` → `F`, and 0 (or
no recognised bit) → `NULL`. -/
def parseTcpFlags : FlagVal → String
  | .str s => s
  | .num n =>
    if n = 0 then "NULL"
    else
      let names := (parseFlagMap.filter (fun bn => decide (n &&& bn.1 ≠ 0))).map (·.2)
      let result := if names.isEmpty then "NULL" else String.intercalate "-" names
      if strContains result "FIN" && strContains result "PSH" && strContains result "URG" then
        "XMAS"
      else if result = "SYN" then "S"
      else if result = "FIN" then "F"
      else result

/-! ## `_detect_sequential_ports` (lines 314–326) -/

/-- Insert into a sorted list (ascending); used to model Python `sorted`. -/
def insertNat (x : Nat) : List Nat → List Nat
  | [] => [x]
  | y :: ys => if x ≤ y then x :: y :: ys else y :: insertNat x ys

/-- Insertion sort, modelling Python `sorted(ports)`. -/
def sortNat : List Nat → List Nat
  | [] => []
  | x :: xs => insertNat x (sortNat xs)

/-- The `sequential_count` loop: the number of adjacent pairs of the sorted
port list whose gap is at most 2. -/
def seqAdjCount (ports : List Nat) : Nat :=
  let s := sortNat ports
  (s.zip s.tail).countP (fun pr => decide (pr.2 - pr.1 ≤ 2))

/-- `_detect_sequential_ports`: false for fewer than 5 ports, otherwise
tests `sequential_count / len(sorted_ports) > 0.6`.  Note the divisor is
the number of *ports*, not the number of consecutive pairs. -/
def detectSequentialPorts (ports : List Nat) : Bool :=
  if ports.length < 5 then false
  else decide (((seqAdjCount ports : ℚ) / (ports.length : ℚ)) > 0.6)

/-! ## `_identify_stealth_scan_type` (lines 328–339) -/

/-- `_identify_stealth_scan_type`: membership of `F`/`FIN` in the tracked
flag labels names FIN_SCAN, then `NULL` names NULL_SCAN, then a label
containing `XMAS` or `FPU` as a substring names XMAS_SCAN, else the generic
STEALTH_SCAN. -/
def identifyStealthScanType (flags : List String) : String :=
  if flags.contains "F" || flags.contains "FIN" then "FIN_SCAN"
  else if flags.contains "NULL" then "NULL_SCAN"
  else if flags.any (fun f => strContains f "XMAS" || strContains f "FPU") then "XMAS_SCAN"
  else "STEALTH_SCAN"

/-! ## `_get_mitigation_action` (lines 354–369) -/

/-- The `actions` dictionary of `_get_mitigation_action`. -/
def mitigationActions : List (String × String) :=
  [("SYN_SCAN", "Block source IP immediately. Enable SYN cookies. Review firewall rules."),
   ("VERTICAL_SCAN", "Block source IP. Enable port knocking. Implement rate limiting."),
   ("HORIZONTAL_SCAN", "CRITICAL: Network-wide attack. Block source network. Alert SOC team."),
   ("STEALTH_SCAN", "Advanced attacker detected. Block IP. Enable IPS. Forensic analysis required."),
   ("UDP_SCAN", "Block UDP traffic from source. Enable stateful firewall inspection."),
   ("FIN_SCAN", "Stealth attack detected. Block source IP. Review all recent connections."),
   ("NULL_SCAN", "Advanced reconnaissance. Block IP. Enable deep packet inspection."),
   ("XMAS_SCAN", "Sophisticated attack. Immediate IP block. Increase monitoring."),
   ("SEQUENTIAL_SCAN", "Systematic reconnaissance. Block IP. Review access logs."),
   ("RAPID_SCAN", "Automated scanning tool detected. Block IP range. Implement CAPTCHA.")]

/-- `_get_mitigation_action(scan_type, severity)`: dictionary lookup with a
default; the `severity` argument is accepted but never used by the body.
`scan_type` is `Option String` because the caller passes the running
`scan_type` variable, whose initial value is `None`. -/
def getMitigationAction (scanType : Option String) (_severity : String) : String :=
  match scanType with
  | some s => (mitigationActions.lookup s).getD "Block source IP and investigate further."
  | none => "Block source IP and investigate further."

/-! ## `_clean_old_entries` (lines 341–352) -/

/-- The eviction loop of `_clean_old_entries`: while the timestamp deque is
non-empty and its front is strictly older than the cutoff, pop the front of
the timestamps deque and (when non-empty) of the flags and protocols
deques.  (`List.tail [] = []` matches the guarded `popleft`.) -/
def cleanLoop (cutoff : ℚ) : List ℚ → List String → List String →
    List ℚ × List String × List String
  | [], fs, ps => ([], fs, ps)
  | t :: ts, fs, ps =>
    if t < cutoff then cleanLoop cutoff ts fs.tail ps.tail
    else (t :: ts, fs, ps)

/-! ## The seven detection patterns of `detect_port_scan` (lines 185–249)

Each pattern block of the source mutates the local variables
`scan_detected`, `scan_type`, `confidence`, `severity`; the embedding
threads them through an accumulator record.  The human-readable `details`
strings are not modelled. -/

/-- The running detection variables of `detect_port_scan`. -/
structure ScanAcc where
  detected : Bool
  scanType : Option String
  conf : ℚ
  sev : String
deriving DecidableEq

/-- Initial values: `scan_detected = False`, `scan_type = None`,
`confidence = 0.0`, `severity = 'LOW'`. -/
def initScanAcc : ScanAcc := ⟨false, none, 0, "LOW"⟩

/-- Pattern 1 (lines 192–198): high number of unique ports. -/
def pattern1 (cfg : Config) (uniquePorts : Nat) (a : ScanAcc) : ScanAcc :=
  if cfg.thresholdPorts ≤ uniquePorts then
    { detected := true, scanType := some "VERTICAL_SCAN",
      conf := min 0.95 (0.5 + ((uniquePorts : ℚ) / (cfg.thresholdPorts : ℚ)) * 0.45),
      sev := "HIGH" }
  else a

/-- Pattern 2 (lines 200–207): high connection rate; keeps an
already-chosen scan type (`if not scan_type`). -/
def pattern2 (rate : ℚ) (a : ScanAcc) : ScanAcc :=
  if 5 < rate then
    { detected := true, scanType := some (a.scanType.getD "RAPID_SCAN"),
      conf := max a.conf (min 0.98 (0.6 + rate / 10 * 0.38)),
      sev := "HIGH" }
  else a

/-- Pattern 3 (lines 209–215): sequential port scanning. -/
def pattern3 (ports : List Nat) (a : ScanAcc) : ScanAcc :=
  if detectSequentialPorts ports then
    { detected := true, scanType := some "SEQUENTIAL_SCAN",
      conf := max a.conf 0.92, sev := "HIGH" }
  else a

/-- Pattern 4 (lines 217–224): SYN stealth scan. -/
def pattern4 (flags : List String) (a : ScanAcc) : ScanAcc :=
  let synOnlyCount := flags.countP (fun f => f == "S" || f == "SYN")
  if 5 < synOnlyCount ∧ 0 < flags.length ∧
      ((synOnlyCount : ℚ) / (flags.length : ℚ)) > 0.7 then
    { detected := true, scanType := some "SYN_SCAN",
      conf := max a.conf 0.96, sev := "HIGH" }
  else a

/-- The stealth flag labels of pattern 5. -/
def stealthFlagLabels : List String := ["F", "FIN", "NULL", "FPU", "XMAS"]

/-- Pattern 5 (lines 226–234): FIN/NULL/XMAS stealth scan; severity
CRITICAL. -/
def pattern5 (flags : List String) (a : ScanAcc) : ScanAcc :=
  let stealthCount := flags.countP (fun f => stealthFlagLabels.contains f)
  if 3 < stealthCount then
    { detected := true, scanType := some (identifyStealthScanType flags),
      conf := max a.conf 0.98, sev := "CRITICAL" }
  else a

/-- Pattern 6 (lines 236–243): UDP scan; note that it overwrites
`scan_type` and sets `severity = 'MEDIUM'` unconditionally when it fires. -/
def pattern6 (protocols : List String) (uniquePorts : Nat) (a : ScanAcc) : ScanAcc :=
  let udpCount := protocols.countP (fun p => p == "udp")
  if 10 < udpCount ∧ 8 < uniquePorts then
    { detected := true, scanType := some "UDP_SCAN",
      conf := max a.conf 0.89, sev := "MEDIUM" }
  else a

/-- Pattern 7 (lines 245–249): well-known-port escalation; only upgrades
the severity. -/
def pattern7 (ports : List Nat) (a : ScanAcc) : ScanAcc :=
  let wellKnown := ports.countP (fun p => decide (p ≤ 1023))
  if 15 < wellKnown then { a with sev := "CRITICAL" } else a

/-! ## `detect_port_scan` (lines 158–278) -/

/-- The detection-result record built at lines 252–273.  The
human-readable fields (`details`, `scan_signature`, `timestamp` echo,
`behavioral_metrics`) are not modelled; `attack_type` is `Option String`
because the running `scan_type` is `None` until a pattern fires. -/
structure ScanResult where
  threat_detected : Bool
  attack_type : Option String
  confidence : ℚ
  severity : String
  source_ip : String
  destination_ip : String
  unique_ports_accessed : Nat
  connection_rate : ℚ
  time_window : ℚ
  recommended_action : Option String
deriving DecidableEq

/-- `time_window_seconds` (line 181): span between oldest and newest
retained timestamp, or 1 when at most one sample is tracked. -/
def spanSeconds (ts : List ℚ) : ℚ :=
  if 1 < ts.length then ts.getLast?.getD 0 - ts.head?.getD 0 else 1

/-- Python set insertion `ports.add(dst_port)` on the duplicate-free list
model. -/
def addPort (p : Nat) (ps : List Nat) : List Nat :=
  if p ∈ ps then ps else ps ++ [p]

/-- The pattern cascade and result construction of `detect_port_scan`,
applied to the already-updated and cleaned per-source state. -/
def buildScanResult (cfg : Config) (st : SourceState) (pkt : Packet) : ScanResult :=
  let span := spanSeconds st.timestamps
  let uniquePorts := st.ports.length
  let rate : ℚ := (st.timestamps.length : ℚ) / max span 1
  let acc :=
    pattern7 st.ports
      (pattern6 st.protocols uniquePorts
        (pattern5 st.flags
          (pattern4 st.flags
            (pattern3 st.ports
              (pattern2 rate
                (pattern1 cfg uniquePorts initScanAcc))))))
  { threat_detected := acc.detected,
    attack_type := if acc.detected then acc.scanType else some "Normal",
    confidence := acc.conf,
    severity := if acc.detected then acc.sev else "NONE",
    source_ip := pkt.srcip,
    destination_ip := pkt.dstip,
    unique_ports_accessed := uniquePorts,
    connection_rate := rate,
    time_window := span,
    recommended_action :=
      if acc.detected then some (getMitigationAction acc.scanType acc.sev) else none }

/-- `detect_port_scan` on one source's state: append the new observation to
the tracked containers, evict stale entries (cutoff is the *new packet's*
timestamp minus the window), then evaluate the patterns.  Returns the
result together with the mutated state. -/
def detectPortScan (cfg : Config) (st : SourceState) (pkt : Packet) :
    ScanResult × SourceState :=
  let f := parseTcpFlags pkt.flags
  let proto := strLower pkt.protocol
  let ts1 := st.timestamps ++ [pkt.timestamp]
  let fs1 := st.flags ++ [f]
  let ps1 := st.protocols ++ [proto]
  let cln := cleanLoop (pkt.timestamp - cfg.windowSize) ts1 fs1 ps1
  let st2 : SourceState :=
    { ports := addPort pkt.dstPort st.ports,
      timestamps := cln.1, flags := cln.2.1, protocols := cln.2.2 }
  (buildScanResult cfg st2 pkt, st2)

/-- Feeding one packet for its state effect only. -/
def feed (cfg : Config) (st : SourceState) (pkt : Packet) : SourceState :=
  (detectPortScan cfg st pkt).2

/-- Feeding a sequence of packets from one source through the tracker. -/
def feedAll (cfg : Config) (st : SourceState) (pkts : List Packet) : SourceState :=
  pkts.foldl (feed cfg) st

/-- Replaying a packet sequence call-by-call and keeping the last call's
detection result (the repeated `detect_port_scan` invocations of a feeder
loop). -/
def runScan (cfg : Config) (st : SourceState) : List Packet → Option ScanResult
  | [] => none
  | [p] => some (detectPortScan cfg st p).1
  | p :: q :: rest => runScan cfg (feed cfg st p) (q :: rest)

/-! ## Concrete scenarios used by the claims -/

/-- A packet from the fixed scenario source, with the given destination
port, flags, protocol and timestamp. -/
def scanPkt (port : Nat) (fl : FlagVal) (proto : String) (t : ℚ) : Packet :=
  ⟨"198.51.100.7", "203.0.113.9", port, proto, fl, t⟩

/-- Ten observations to the ten distinct destination ports 1..10, same
source, all at the same instant (hence within 1 second of each other),
with plain ACK flags over TCP. -/
def seqPortsRun : List Packet :=
  (List.range 10).map (fun i => scanPkt (i + 1) (.str "ACK") "tcp" 0)

/-- Ten observations to the ten distinct destination ports 10,20,…,100
(adjacent gaps of 10, so the sequential-port pattern cannot fire), same
source, all at the same instant, with plain ACK flags over TCP. -/
def spreadPortsRun : List Packet :=
  (List.range 10).map (fun i => scanPkt ((i + 1) * 10) (.str "ACK") "tcp" 0)

/-- Twelve UDP observations to twelve distinct high ports with a zero
flags field (parsed as the stealth label `NULL`), same source, same
instant: this makes both the stealth check (count 12 > 3) and the
UDP-scan check (12 UDP probes > 10, 12 unique ports > 8) fire. -/
def udpStealthRun : List Packet :=
  (List.range 12).map (fun i => scanPkt (2000 + i) (.num 0) "udp" 0)

/-- The per-source state after the whole `udpStealthRun`, i.e. the state
the final `detect_port_scan` call evaluated its patterns on. -/
def udpStealthState : SourceState :=
  feedAll defaultConfig emptySourceState udpStealthRun

/-- Evaluation bridge: lowercasing the protocol names of the scenarios. -/
theorem strLower_udp : strLower "udp" = "udp" := by decide

/-- Evaluation bridge: lowercasing the TCP protocol name. -/
theorem strLower_tcp : strLower "tcp" = "tcp" := by decide

/-- Evaluation bridges: the scenario flag label `ACK` matches none of the
labels the pattern checks compare against, and `tcp` is not `udp`. -/
theorem ackNe_s : ("ACK" = "S") = False := by decide

/-- Evaluation bridge: `ACK` is not the label `SYN`. -/
theorem ackNe_syn : ("ACK" = "SYN") = False := by decide

/-- Evaluation bridge: `ACK` is not the label `F`. -/
theorem ackNe_f : ("ACK" = "F") = False := by decide

/-- Evaluation bridge: `ACK` is not the label `FIN`. -/
theorem ackNe_fin : ("ACK" = "FIN") = False := by decide

/-- Evaluation bridge: `ACK` is not the label `NULL`. -/
theorem ackNe_null : ("ACK" = "NULL") = False := by decide

/-- Evaluation bridge: `ACK` is not the label `FPU`. -/
theorem ackNe_fpu : ("ACK" = "FPU") = False := by decide

/-- Evaluation bridge: `ACK` is not the label `XMAS`. -/
theorem ackNe_xmas : ("ACK" = "XMAS") = False := by decide

/-- Evaluation bridge: `tcp` is not the protocol label `udp`. -/
theorem tcpNe_udp : ("tcp" = "udp") = False := by decide

/-- The explicit value of `udpStealthState`. -/
theorem udpStealthState_eq :
    udpStealthState =
      ⟨[2000, 2001, 2002, 2003, 2004, 2005, 2006, 2007, 2008, 2009, 2010, 2011],
       [0, 0, 0, 0, 0, 0, 0, 0, 0, 0, 0, 0],
       ["NULL", "NULL", "NULL", "NULL", "NULL", "NULL", "NULL", "NULL", "NULL",
        "NULL", "NULL", "NULL"],
       ["udp", "udp", "udp", "udp", "udp", "udp", "udp", "udp", "udp", "udp",
        "udp", "udp"]⟩ := by
  norm_num [udpStealthState, udpStealthRun, List.range_succ, feedAll, feed,
    detectPortScan, cleanLoop, addPort, parseTcpFlags, emptySourceState,
    defaultConfig, scanPkt, strLower_udp]

/-! ## C3 — stealth severity is **not** sticky -/

set_option maxHeartbeats 4000000 in
set_option maxRecDepth 4000 in
/-- C3 counterexample: a run on which the stealth-scan check fires (the
stealth-flag count of the evaluated state is 12 > 3, and the stealth
subtype it names is `NULL_SCAN`), yet `detect_port_scan` reports attack
type `UDP_SCAN` with severity `MEDIUM`: the later UDP-scan check
overwrites both the stealth subtype and the CRITICAL severity,
contradicting the claim. -/
theorem stealth_overwritten_by_udp_check :
    3 < udpStealthState.flags.countP (fun f => stealthFlagLabels.contains f) ∧
    identifyStealthScanType udpStealthState.flags = "NULL_SCAN" ∧
    (runScan defaultConfig emptySourceState udpStealthRun).map
        (fun r => (r.attack_type, r.severity)) =
      some (some "UDP_SCAN", "MEDIUM") ∧
    ("UDP_SCAN", "MEDIUM") ≠ ("NULL_SCAN", "CRITICAL") := by
  refine ⟨?_, ?_, ?_, by decide⟩
  · rw [udpStealthState_eq]; decide
  · rw [udpStealthState_eq]; decide
  · norm_num [udpStealthRun, List.range_succ, runScan, feed, detectPortScan, cleanLoop,
      addPort, parseTcpFlags, emptySourceState, defaultConfig, scanPkt, buildScanResult,
      pattern1, pattern2, pattern3, pattern4, pattern5, pattern6, pattern7, spanSeconds,
      detectSequentialPorts, seqAdjCount, sortNat, insertNat, identifyStealthScanType,
      initScanAcc, stealthFlagLabels, strLower_udp, List.countP_cons, List.countP_nil,
      getMitigationAction, mitigationActions]

/-- C3 amended: when the stealth check fires (stealth-flag count > 3) and
the well-known-port escalation does not (≤ 15 well-known ports), the
result keeps the stealth subtype and severity CRITICAL **only if** the
UDP-scan check does not also fire; if the UDP-scan check fires too
(UDP count > 10 and unique ports > 8), it overwrites the attack type to
`UDP_SCAN` and the severity to `MEDIUM` (the confidence keeps its running
maximum, which stays ≥ 0.98). -/
theorem stealth_vs_udp_precedence (cfg : Config) (st : SourceState) (pkt : Packet)
    (hst : 3 < st.flags.countP (fun f => stealthFlagLabels.contains f))
    (hwk : ¬ 15 < st.ports.countP (fun p => decide (p ≤ 1023))) :
    ((10 < st.protocols.countP (fun p => p == "udp") ∧ 8 < st.ports.length) →
        (buildScanResult cfg st pkt).attack_type = some "UDP_SCAN" ∧
        (buildScanResult cfg st pkt).severity = "MEDIUM" ∧
        0.98 ≤ (buildScanResult cfg st pkt).confidence) ∧
    (¬ (10 < st.protocols.countP (fun p => p == "udp") ∧ 8 < st.ports.length) →
        (buildScanResult cfg st pkt).attack_type =
          some (identifyStealthScanType st.flags) ∧
        (buildScanResult cfg st pkt).severity = "CRITICAL" ∧
        0.98 ≤ (buildScanResult cfg st pkt).confidence) := by
  simp only [buildScanResult, pattern7, pattern6, pattern5]
  constructor
  · intro hudp
    rw [if_neg hwk, if_pos hudp, if_pos hst]
    refine ⟨rfl, rfl, ?_⟩
    exact le_trans (le_max_right _ 0.98) (le_max_left _ 0.89)
  · intro hudp
    rw [if_neg hwk, if_neg hudp, if_pos hst]
    exact ⟨rfl, rfl, le_max_right _ 0.98⟩

/-- Witness for the amended C3 at the concrete evaluated state of the
`udpStealthRun` scenario, in which both checks fire. -/
theorem stealth_vs_udp_precedence_witness :
    (buildScanResult defaultConfig udpStealthState
        (scanPkt 2011 (.num 0) "udp" 0)).attack_type = some "UDP_SCAN" ∧
    (buildScanResult defaultConfig udpStealthState
        (scanPkt 2011 (.num 0) "udp" 0)).severity = "MEDIUM" := by
  have h := stealth_vs_udp_precedence defaultConfig udpStealthState
    (scanPkt 2011 (.num 0) "udp" 0)
    (by rw [udpStealthState_eq]; decide)
    (by rw [udpStealthState_eq]; decide)
  have h2 := h.1 (by rw [udpStealthState_eq]; exact ⟨by decide, by decide⟩)
  exact ⟨h2.1, h2.2.1⟩

/-! ## C6 — sequential-scan trigger divides by the port count -/

/-- C6 counterexample: for the five ports `[1,2,3,4,10]` there are 4
consecutive pairs of which 3 have gap ≤ 2, so the claimed trigger ratio
3/4 exceeds 0.6 — yet `_detect_sequential_ports` returns `false`, because
the code divides by the number of *ports* (3/5 = 0.6, not > 0.6). -/
theorem sequential_trigger_divisor_counterexample :
    detectSequentialPorts [1, 2, 3, 4, 10] = false ∧
    5 ≤ ([1, 2, 3, 4, 10] : List Nat).length ∧
    seqAdjCount [1, 2, 3, 4, 10] = 3 ∧
    ((3 : ℚ) / 4) > 0.6 := by
  have hc : seqAdjCount [1, 2, 3, 4, 10] = 3 := by decide
  refine ⟨?_, by decide, hc, by norm_num⟩
  unfold detectSequentialPorts
  rw [if_neg (by decide)]
  rw [decide_eq_false_iff_not]
  rw [hc]
  norm_num

/-- C6 amended: the sequential-scan signature fires exactly when the
source has at least 5 unique ports and the count of adjacent sorted pairs
with gap ≤ 2, divided by the **number of ports** (not the number of
consecutive pairs), exceeds 0.6; when it fires, the finding becomes
SEQUENTIAL_SCAN with confidence max(current, 0.92) and severity HIGH. -/
theorem sequential_trigger_characterization (ports : List Nat) (a : ScanAcc) :
    (detectSequentialPorts ports = true ↔
      5 ≤ ports.length ∧ ((seqAdjCount ports : ℚ) / (ports.length : ℚ)) > 0.6) ∧
    (detectSequentialPorts ports = true →
      pattern3 ports a =
        { detected := true, scanType := some "SEQUENTIAL_SCAN",
          conf := max a.conf 0.92, sev := "HIGH" }) := by
  constructor
  · unfold detectSequentialPorts
    split_ifs with h
    · simp only [Bool.false_eq_true, false_iff]
      intro hc
      omega
    · simp only [decide_eq_true_eq]
      exact ⟨fun hr => ⟨by omega, hr⟩, fun hr => hr.2⟩
  · intro h
    unfold pattern3
    rw [if_pos h]

/-- Witness for the amended C6 at the concrete port list `[1,2,3,4,5]`
(adjacent-pair count 4 over 5 ports, ratio 4/5 > 0.6, so it fires with the
stated finding). -/
theorem sequential_trigger_characterization_witness :
    detectSequentialPorts [1, 2, 3, 4, 5] = true ∧
    pattern3 [1, 2, 3, 4, 5] initScanAcc =
      { detected := true, scanType := some "SEQUENTIAL_SCAN",
        conf := max initScanAcc.conf 0.92, sev := "HIGH" } := by
  have h := sequential_trigger_characterization [1, 2, 3, 4, 5] initScanAcc
  have hc : seqAdjCount [1, 2, 3, 4, 5] = 4 := by decide
  have hf : detectSequentialPorts [1, 2, 3, 4, 5] = true := by
    refine h.1.mpr ⟨by decide, ?_⟩
    rw [hc]
    norm_num
  exact ⟨hf, h.2 hf⟩

/-! ## C9 — the vertical-scan scenario -/

set_option maxHeartbeats 4000000 in
set_option maxRecDepth 4000 in
/-- C9 counterexample: ten observations to ten distinct destination ports
within one second (ports 1..10) yield attack type `SEQUENTIAL_SCAN`, not
`VERTICAL_SCAN` (the later sequential check overwrites the type), and
confidence 0.98, not the claimed min(0.95, 0.5 + (10/10)·0.45) = 0.95
(the rapid-scan check raises it). -/
theorem vertical_scan_scenario_counterexample :
    (runScan defaultConfig emptySourceState seqPortsRun).map
        (fun r => (r.attack_type, r.confidence, r.severity)) =
      some (some "SEQUENTIAL_SCAN", 0.98, "HIGH") ∧
    some "SEQUENTIAL_SCAN" ≠ some "VERTICAL_SCAN" ∧
    (0.98 : ℚ) ≠ min 0.95 (0.5 + ((10 : ℚ) / 10) * 0.45) := by
  refine ⟨?_, by decide, ?_⟩
  · norm_num [seqPortsRun, List.range_succ, runScan, feed, detectPortScan, cleanLoop,
      addPort, parseTcpFlags, emptySourceState, defaultConfig, scanPkt, buildScanResult,
      pattern1, pattern2, pattern3, pattern4, pattern5, pattern6, pattern7, spanSeconds,
      detectSequentialPorts, seqAdjCount, sortNat, insertNat, identifyStealthScanType,
      initScanAcc, stealthFlagLabels, strLower_tcp, List.countP_cons, List.countP_nil,
      getMitigationAction, mitigationActions, ackNe_s, ackNe_syn, ackNe_f, ackNe_fin,
      ackNe_null, ackNe_fpu, ackNe_xmas, tcpNe_udp]
  · have h : (0.5 + ((10 : ℚ) / 10) * 0.45) = 0.95 := by norm_num
    rw [h, min_self]
    norm_num

set_option maxHeartbeats 4000000 in
set_option maxRecDepth 4000 in
/-- C9 amended: ten observations to ten distinct destination ports within
one second yield a detected threat with severity HIGH and confidence
≥ 0.95; the reported confidence is 0.98 — the rapid-scan check (10
connections/s > 5/s) raises it above min(0.95, 0.5+(10/10)·0.45) = 0.95 —
and the attack type is VERTICAL_SCAN provided the port set and flags do
not additionally trigger the sequential/SYN/stealth checks (here: ports
10,20,…,100 and ACK flags). -/
theorem vertical_scan_scenario_amended :
    (runScan defaultConfig emptySourceState spreadPortsRun).map
        (fun r => (r.threat_detected, r.attack_type, r.confidence, r.severity)) =
      some (true, some "VERTICAL_SCAN", 0.98, "HIGH") ∧
    (0.95 : ℚ) ≤ 0.98 := by
  refine ⟨?_, by norm_num⟩
  norm_num [spreadPortsRun, List.range_succ, runScan, feed, detectPortScan, cleanLoop,
    addPort, parseTcpFlags, emptySourceState, defaultConfig, scanPkt, buildScanResult,
    pattern1, pattern2, pattern3, pattern4, pattern5, pattern6, pattern7, spanSeconds,
    detectSequentialPorts, seqAdjCount, sortNat, insertNat, identifyStealthScanType,
    initScanAcc, stealthFlagLabels, strLower_tcp, List.countP_cons, List.countP_nil,
    getMitigationAction, mitigationActions, ackNe_s, ackNe_syn, ackNe_f, ackNe_fin,
    ackNe_null, ackNe_fpu, ackNe_xmas, tcpNe_udp]

/-! ## Eviction lemmas (C7, C10)

`_clean_old_entries` pops from the front of the parallel deques; on the
timestamp deque it is exactly `dropWhile`, and on the flag/protocol deques
it drops the same number of entries. -/

/-- Dropping after a tail is dropping one more. -/
theorem tailDrop {α : Type} (l : List α) (k : Nat) : l.tail.drop k = l.drop (k + 1) := by
  rw [← List.drop_one, List.drop_drop, Nat.add_comm]

/-- The eviction loop is `dropWhile` on timestamps, dropping the same
count from the two parallel deques. -/
theorem cleanLoop_eq (cutoff : ℚ) (ts : List ℚ) :
    ∀ fs ps : List String,
      cleanLoop cutoff ts fs ps =
        (ts.dropWhile (fun u => decide (u < cutoff)),
         fs.drop ((ts.takeWhile (fun u => decide (u < cutoff))).length),
         ps.drop ((ts.takeWhile (fun u => decide (u < cutoff))).length)) := by
  induction ts with
  | nil => intro fs ps; simp [cleanLoop]
  | cons t ts ih =>
    intro fs ps
    by_cases h : t < cutoff
    · simp only [cleanLoop, if_pos h]
      rw [ih fs.tail ps.tail]
      simp only [List.dropWhile_cons, List.takeWhile_cons, decide_eq_true h,
        if_true, List.length_cons, tailDrop]
    · simp only [cleanLoop, if_neg h, List.dropWhile_cons, List.takeWhile_cons,
        decide_eq_false h, List.length_nil, List.drop_zero, Bool.false_eq_true,
        if_false]

/-- On a sorted timestamp list, front eviction removes exactly the stale
entries: `dropWhile (· < c)` agrees with `filter (c ≤ ·)`. -/
theorem dropWhile_lt_eq_filter (c : ℚ) (l : List ℚ) (h : l.Pairwise (· ≤ ·)) :
    l.dropWhile (fun u => decide (u < c)) = l.filter (fun u => decide (c ≤ u)) := by
  induction l with
  | nil => simp
  | cons a l ih =>
    rw [List.pairwise_cons] at h
    obtain ⟨ha, hl⟩ := h
    by_cases hc : a < c
    · rw [List.dropWhile_cons, List.filter_cons]
      rw [decide_eq_true hc, decide_eq_false (not_le.mpr hc)]
      simpa using ih hl
    · rw [List.dropWhile_cons, List.filter_cons]
      rw [decide_eq_false hc, decide_eq_true (not_lt.mp hc)]
      simp only [Bool.false_eq_true, if_false, if_true]
      have : l.filter (fun u => decide (c ≤ u)) = l := by
        apply List.filter_eq_self.mpr
        intro b hb
        exact decide_eq_true (le_trans (not_lt.mp hc) (ha b hb))
      rw [this]

/-- The timestamps appended with the newest observation stay sorted when
the source's observations arrive in non-decreasing timestamp order. -/
theorem appended_sorted (ts : List ℚ) (t : ℚ) (hs : ts.Pairwise (· ≤ ·))
    (hm : ∀ u ∈ ts, u ≤ t) : (ts ++ [t]).Pairwise (· ≤ ·) := by
  apply List.pairwise_append.mpr
  refine ⟨hs, List.pairwise_singleton _ _, ?_⟩
  intro a ha b hb
  rw [List.mem_singleton] at hb
  subst hb
  exact hm a ha

/-! ## C7 — window eviction -/

/-- C7: for a source whose tracked timestamps are in order (the spec's
oldest-first sequences) with first entry `t`, an observation at a time
more than `windowSize` after `t` evicts exactly the entries older than
`now − windowSize` where `now` is the new observation's timestamp — so `t`
is no longer tracked, and the result's span is computed over the retained
entries only. -/
theorem window_eviction (cfg : Config) (st : SourceState) (pkt : Packet) (t : ℚ)
    (hsorted : st.timestamps.Pairwise (· ≤ ·))
    (hmono : ∀ u ∈ st.timestamps, u ≤ pkt.timestamp)
    (_hhead : st.timestamps.head? = some t)
    (ht : t + cfg.windowSize < pkt.timestamp) :
    (detectPortScan cfg st pkt).2.timestamps =
      (st.timestamps ++ [pkt.timestamp]).filter
        (fun u => decide (pkt.timestamp - cfg.windowSize ≤ u)) ∧
    t ∉ (detectPortScan cfg st pkt).2.timestamps ∧
    (detectPortScan cfg st pkt).1.time_window =
      spanSeconds ((st.timestamps ++ [pkt.timestamp]).filter
        (fun u => decide (pkt.timestamp - cfg.windowSize ≤ u))) := by
  have hgoal :
      (detectPortScan cfg st pkt).2.timestamps =
        (st.timestamps ++ [pkt.timestamp]).filter
          (fun u => decide (pkt.timestamp - cfg.windowSize ≤ u)) := by
    show (cleanLoop (pkt.timestamp - cfg.windowSize)
        (st.timestamps ++ [pkt.timestamp]) (st.flags ++ [parseTcpFlags pkt.flags])
        (st.protocols ++ [strLower pkt.protocol])).1 = _
    rw [cleanLoop_eq]
    exact dropWhile_lt_eq_filter _ _ (appended_sorted _ _ hsorted hmono)
  refine ⟨hgoal, ?_, ?_⟩
  · rw [hgoal]
    intro hmem
    rw [List.mem_filter] at hmem
    have hle : pkt.timestamp - cfg.windowSize ≤ t := of_decide_eq_true hmem.2
    linarith
  · show spanSeconds (detectPortScan cfg st pkt).2.timestamps = _
    rw [hgoal]

/-- Witness for C7: one tracked observation at time 0, a new observation
at time 61 > 0 + 60; the sole old entry is evicted and only the new
timestamp remains. -/
theorem window_eviction_witness :
    (detectPortScan defaultConfig ⟨[80], [0], ["S"], ["tcp"]⟩
        (scanPkt 81 (.str "S") "tcp" 61)).2.timestamps =
      (([0] ++ [61] : List ℚ)).filter (fun u => decide ((61 : ℚ) - 60 ≤ u)) ∧
    (0 : ℚ) ∉ (detectPortScan defaultConfig ⟨[80], [0], ["S"], ["tcp"]⟩
        (scanPkt 81 (.str "S") "tcp" 61)).2.timestamps ∧
    (detectPortScan defaultConfig ⟨[80], [0], ["S"], ["tcp"]⟩
        (scanPkt 81 (.str "S") "tcp" 61)).1.time_window =
      spanSeconds ((([0] ++ [61] : List ℚ)).filter
        (fun u => decide ((61 : ℚ) - 60 ≤ u))) :=
  window_eviction defaultConfig ⟨[80], [0], ["S"], ["tcp"]⟩
    (scanPkt 81 (.str "S") "tcp" 61) 0
    (by simp) (by intro u hu; rw [List.mem_singleton] at hu; subst hu; norm_num [scanPkt])
    rfl (by norm_num [defaultConfig, scanPkt])

/-! ## C10 — the per-source state invariant -/

/-- Two observations whose timestamps go backwards (100, then 0). -/
def nonMonotoneRun : List Packet :=
  [scanPkt 80 (.str "S") "tcp" 100, scanPkt 81 (.str "S") "tcp" 0]

/-- The tracked state after `nonMonotoneRun`. -/
def nonMonotoneState : SourceState :=
  feedAll defaultConfig emptySourceState nonMonotoneRun

/-- C10 counterexample: after a cleanup pass the retained timestamps can
be `[100, 0]`, and there is **no** instant `now` (in particular neither
the newest observation's timestamp 0 nor the maximum 100) such that every
retained timestamp lies within `[now − 60, now]`: the claimed invariant
fails when observations arrive with decreasing timestamps. -/
theorem window_invariant_counterexample :
    nonMonotoneState.timestamps = [100, 0] ∧
    ¬ ∃ now : ℚ, ∀ u ∈ nonMonotoneState.timestamps,
        now - 60 ≤ u ∧ u ≤ now := by
  have he : nonMonotoneState.timestamps = [100, 0] := by
    norm_num [nonMonotoneState, nonMonotoneRun, feedAll, feed, detectPortScan,
      cleanLoop, addPort, parseTcpFlags, emptySourceState, defaultConfig, scanPkt]
  refine ⟨he, ?_⟩
  rintro ⟨now, h⟩
  rw [he] at h
  have h1 := h 100 (by simp)
  have h2 := h 0 (by simp)
  linarith [h1.2, h2.1]

/-- C10 amended: every `detect_port_scan` call preserves the equal-length
invariant of the three parallel sequences unconditionally; and provided
the window is non-negative and the source's observations arrive in
non-decreasing timestamp order, after the cleanup pass the retained
timestamps are still sorted and all lie within `[now − windowSize, now]`
where `now` is the newest observation's timestamp. -/
theorem state_invariant_preservation (cfg : Config) (st : SourceState) (pkt : Packet) :
    (st.flags.length = st.timestamps.length →
     st.protocols.length = st.timestamps.length →
      (detectPortScan cfg st pkt).2.flags.length =
          (detectPortScan cfg st pkt).2.timestamps.length ∧
        (detectPortScan cfg st pkt).2.protocols.length =
          (detectPortScan cfg st pkt).2.timestamps.length) ∧
    (0 ≤ cfg.windowSize → st.timestamps.Pairwise (· ≤ ·) →
     (∀ u ∈ st.timestamps, u ≤ pkt.timestamp) →
      (detectPortScan cfg st pkt).2.timestamps.Pairwise (· ≤ ·) ∧
        ∀ u ∈ (detectPortScan cfg st pkt).2.timestamps,
          pkt.timestamp - cfg.windowSize ≤ u ∧ u ≤ pkt.timestamp) := by
  have hts : (detectPortScan cfg st pkt).2.timestamps =
      (st.timestamps ++ [pkt.timestamp]).dropWhile
        (fun u => decide (u < pkt.timestamp - cfg.windowSize)) := by
    show (cleanLoop (pkt.timestamp - cfg.windowSize)
        (st.timestamps ++ [pkt.timestamp]) (st.flags ++ [parseTcpFlags pkt.flags])
        (st.protocols ++ [strLower pkt.protocol])).1 = _
    rw [cleanLoop_eq]
  have hfs : (detectPortScan cfg st pkt).2.flags =
      (st.flags ++ [parseTcpFlags pkt.flags]).drop
        (((st.timestamps ++ [pkt.timestamp]).takeWhile
          (fun u => decide (u < pkt.timestamp - cfg.windowSize))).length) := by
    show (cleanLoop (pkt.timestamp - cfg.windowSize)
        (st.timestamps ++ [pkt.timestamp]) (st.flags ++ [parseTcpFlags pkt.flags])
        (st.protocols ++ [strLower pkt.protocol])).2.1 = _
    rw [cleanLoop_eq]
  have hps : (detectPortScan cfg st pkt).2.protocols =
      (st.protocols ++ [strLower pkt.protocol]).drop
        (((st.timestamps ++ [pkt.timestamp]).takeWhile
          (fun u => decide (u < pkt.timestamp - cfg.windowSize))).length) := by
    show (cleanLoop (pkt.timestamp - cfg.windowSize)
        (st.timestamps ++ [pkt.timestamp]) (st.flags ++ [parseTcpFlags pkt.flags])
        (st.protocols ++ [strLower pkt.protocol])).2.2 = _
    rw [cleanLoop_eq]
  have hsplit : ∀ p : ℚ → Bool,
      ((st.timestamps ++ [pkt.timestamp]).takeWhile p).length +
        ((st.timestamps ++ [pkt.timestamp]).dropWhile p).length =
      st.timestamps.length + 1 := by
    intro p
    rw [← List.length_append, List.takeWhile_append_dropWhile, List.length_append]
    simp
  constructor
  · intro hf hp
    have hk := hsplit (fun u => decide (u < pkt.timestamp - cfg.windowSize))
    have hkle : ((st.timestamps ++ [pkt.timestamp]).takeWhile
        (fun u => decide (u < pkt.timestamp - cfg.windowSize))).length ≤
        st.timestamps.length + 1 := by omega
    constructor
    · rw [hts, hfs, List.length_drop, List.length_append, hf]
      simp only [List.length_singleton]
      omega
    · rw [hts, hps, List.length_drop, List.length_append, hp]
      simp only [List.length_singleton]
      omega
  · intro hw hsorted hmono
    have hsorted' := appended_sorted _ _ hsorted hmono
    have hfil : (detectPortScan cfg st pkt).2.timestamps =
        (st.timestamps ++ [pkt.timestamp]).filter
          (fun u => decide (pkt.timestamp - cfg.windowSize ≤ u)) := by
      rw [hts]
      exact dropWhile_lt_eq_filter _ _ hsorted'
    constructor
    · rw [hfil]
      exact hsorted'.sublist (List.filter_sublist _)
    · intro u hu
      rw [hfil, List.mem_filter] at hu
      refine ⟨of_decide_eq_true hu.2, ?_⟩
      rcases List.mem_append.mp hu.1 with h | h
      · exact hmono u h
      · rw [List.mem_singleton] at h
        subst h
        exact le_refl _

/-- Witness for the amended C10: a one-entry state observed again 61
seconds later keeps the sequences aligned and the retained timestamp
within the window of the newest observation. -/
theorem state_invariant_preservation_witness :
    ((detectPortScan defaultConfig ⟨[80], [0], ["S"], ["tcp"]⟩
        (scanPkt 81 (.str "S") "tcp" 61)).2.flags.length =
      (detectPortScan defaultConfig ⟨[80], [0], ["S"], ["tcp"]⟩
        (scanPkt 81 (.str "S") "tcp" 61)).2.timestamps.length ∧
     (detectPortScan defaultConfig ⟨[80], [0], ["S"], ["tcp"]⟩
        (scanPkt 81 (.str "S") "tcp" 61)).2.protocols.length =
      (detectPortScan defaultConfig ⟨[80], [0], ["S"], ["tcp"]⟩
        (scanPkt 81 (.str "S") "tcp" 61)).2.timestamps.length) ∧
    ((detectPortScan defaultConfig ⟨[80], [0], ["S"], ["tcp"]⟩
        (scanPkt 81 (.str "S") "tcp" 61)).2.timestamps.Pairwise (· ≤ ·) ∧
      ∀ u ∈ (detectPortScan defaultConfig ⟨[80], [0], ["S"], ["tcp"]⟩
          (scanPkt 81 (.str "S") "tcp" 61)).2.timestamps,
        (scanPkt 81 (.str "S") "tcp" 61).timestamp - defaultConfig.windowSize ≤ u ∧
          u ≤ (scanPkt 81 (.str "S") "tcp" 61).timestamp) := by
  have h := state_invariant_preservation defaultConfig ⟨[80], [0], ["S"], ["tcp"]⟩
    (scanPkt 81 (.str "S") "tcp" 61)
  exact ⟨h.1 rfl rfl,
    h.2 (by norm_num [defaultConfig]) (by simp)
      (by intro u hu; rw [List.mem_singleton] at hu; subst hu; norm_num [scanPkt])⟩

/-! ## CyberSentinelMod fusion (`cyber_sentinel_mod.py`)

`analyze_packet` (lines 494–596) combines the ML classifier verdict, the
port-scan detector result and the heuristic result.  The classifier itself
(Keras model, lines 393–451) is an opaque external collaborator: its
outcome is embedded as `Option MLVerdict` (`none` = model unavailable or
prediction raised, i.e. `ml_available = False`).  The model name (derived
from the model file's basename at lines 528–541) is passed as a
parameter. -/

/-- The fields of a successful `predict_ml` result that `analyze_packet`
consumes: `pred_class` (`None` when no label encoder is loaded),
`pred_class_idx` (an `argmax` index, hence a natural number) and the
confidence. -/
structure MLVerdict where
  predClass : Option String
  predClassIdx : Nat
  confidence : ℚ
deriving DecidableEq

/-- `pred = ml_res.get('pred_class') or str(ml_res.get('pred_class_idx'))`:
a missing or empty class name falls back to the printed index. -/
def mlPredLabel (v : MLVerdict) : String :=
  match v.predClass with
  | some s => if s = "" then Nat.repr v.predClassIdx else s
  | none => Nat.repr v.predClassIdx

/-- The benign-alias set of `analyze_packet` (line 546). -/
def benignAliases : List String := ["BENIGN", "NORMAL", "0", "NONE"]

/-- `is_benign`: the uppercased predicted label is one of the aliases. -/
def isBenignLabel (pred : String) : Bool :=
  benignAliases.contains (strUpper pred)

/-- The `severity_map` dictionary of `_get_severity_from_attack_type`
(lines 604–628). -/
def severityMap : List (String × String) :=
  [("BENIGN", "NONE"), ("NORMAL", "NONE"), ("DOS", "HIGH"), ("DDOS", "HIGH"),
   ("PORTSCAN", "MEDIUM"), ("PORT_SCAN", "MEDIUM"), ("BOT", "HIGH"),
   ("INFILTRATION", "CRITICAL"), ("WEBATTACK", "HIGH"), ("WEB_ATTACK", "HIGH"),
   ("FTP-PATATOR", "MEDIUM"), ("SSH-PATATOR", "MEDIUM"), ("BRUTEFORCE", "HIGH"),
   ("BRUTE_FORCE", "HIGH"), ("HEARTBLEED", "CRITICAL"), ("EXPLOITS", "HIGH"),
   ("BACKDOOR", "CRITICAL"), ("SHELLCODE", "CRITICAL"), ("WORMS", "CRITICAL"),
   ("ANALYSIS", "MEDIUM"), ("FUZZERS", "MEDIUM"), ("RECONNAISSANCE", "MEDIUM"),
   ("GENERIC", "MEDIUM")]

/-- `_get_severity_from_attack_type` (lines 599–630): a falsy (empty)
label maps to LOW, otherwise the uppercased label is looked up in the
fixed table with default MEDIUM. -/
def getSeverityFromAttackType (attackType : String) : String :=
  if attackType = "" then "LOW"
  else (severityMap.lookup (strUpper attackType)).getD "MEDIUM"

/-- A heuristic finding of `heuristic_classify` (lines 455–491). -/
structure HeuristicResult where
  heuristic : String
  confidence : ℚ
  severity : String
deriving DecidableEq

/-- `heuristic_classify` on the (already-updated) per-source state:
DoS above 50 connections/s, brute force above 20 connections to fewer
than 5 ports, service scan above 10 well-known ports; otherwise nothing.
(The `srcip`-missing and source-untracked early exits are the caller's
map lookup and are not reached when the state exists.) -/
def heuristicClassify (st : SourceState) : Option HeuristicResult :=
  let totalConns := st.timestamps.length
  let uniquePorts := st.ports.length
  let connRate : ℚ := (totalConns : ℚ) / max (spanSeconds st.timestamps) 1
  if 50 < connRate then
    some ⟨"DOS_ATTACK", min 0.99 (connRate / 100), "CRITICAL"⟩
  else if 20 < totalConns ∧ uniquePorts < 5 then
    some ⟨"BRUTE_FORCE", min 0.95 ((totalConns : ℚ) / 100), "HIGH"⟩
  else
    let wellKnownHits := st.ports.countP (fun p => decide (p ≤ 1023))
    if 10 < wellKnownHits then some ⟨"SERVICE_SCAN", 0.8, "HIGH"⟩
    else none

/-- The fields of the `final` result dictionary of `analyze_packet` that
carry the detection outcome.  The echo fields (`timestamp`, `source_ip`,
`destination_ip`, `protocol`, the three sub-result pass-throughs, and the
`status` string) are not modelled.  `attack_type`/`attack_label` are
`Option String` because the port-scan branch copies the scan result's
possibly-`None` attack type. -/
structure FinalResult where
  threat_detected : Bool
  attack_type : Option String
  attack_label : Option String
  confidence : ℚ
  severity : String
  model_used : Option String
  recommendation : Option String
deriving DecidableEq

/-- The initial `final` dictionary (lines 504–520). -/
def initialFinal : FinalResult :=
  { threat_detected := false, attack_type := some "BENIGN",
    attack_label := some "BENIGN", confidence := 0, severity := "NONE",
    model_used := none, recommendation := none }

/-- Steps 2–4 of `analyze_packet` (lines 565–596): the port-scan detector
result wins if it detected a threat; otherwise a heuristic finding above
confidence 0.5; otherwise the benign default (which, when the ML model was
available, keeps the fields set by the benign ML branch). -/
def backupDetectors (f : FinalResult) (scan : ScanResult)
    (heuristic : Option HeuristicResult) (mlAvailable : Bool) : FinalResult :=
  if scan.threat_detected then
    { f with
      threat_detected := true, attack_type := scan.attack_type,
      attack_label := scan.attack_type, confidence := scan.confidence,
      severity := scan.severity, recommendation := scan.recommended_action,
      model_used := some "PortScanDetector (backup)" }
  else
    match heuristic with
    | some h =>
      if 0.5 < h.confidence then
        { f with
          threat_detected := true, attack_type := some h.heuristic,
          attack_label := some h.heuristic, confidence := h.confidence,
          severity := h.severity,
          recommendation := some ("Heuristic detected " ++ h.heuristic),
          model_used := some "Heuristic (backup)" }
      else if mlAvailable then f
      else { f with attack_type := some "BENIGN", severity := "NONE" }
    | none =>
      if mlAvailable then f
      else { f with attack_type := some "BENIGN", severity := "NONE" }

/-- `analyze_packet`'s fusion policy over the three sub-results.  When the
classifier verdict is present, non-benign and at confidence ≥ 0.3, it wins
and returns immediately (lines 543–557); a present-but-benign verdict
resets the threat fields (lines 558–563) and falls through to the backup
detectors; an absent verdict goes straight to them. -/
def analyzePacket (modelName : String) (ml : Option MLVerdict)
    (scan : ScanResult) (heuristic : Option HeuristicResult) : FinalResult :=
  match ml with
  | some v =>
    let pred := mlPredLabel v
    let conf := v.confidence
    let f1 := { initialFinal with
                attack_label := some pred, confidence := conf,
                model_used := some modelName }
    if isBenignLabel pred = false ∧ 0.3 ≤ conf then
      { f1 with
        threat_detected := true, attack_type := some pred,
        attack_label := some pred,
        severity := getSeverityFromAttackType pred,
        recommendation := some (modelName ++ " detected " ++ pred ++
          ". Investigate and apply IDS policy based on attack type.") }
    else
      backupDetectors
        { f1 with
          threat_detected := false, attack_type := some "BENIGN",
          attack_label := some "BENIGN", severity := "NONE" }
        scan heuristic true
  | none => backupDetectors initialFinal scan heuristic false

/-- The full per-observation pipeline of `analyze_packet`: the port-scan
detector is run (and the per-source state mutated) *before* the priority
policy consults the classifier verdict, and `heuristic_classify` reads the
mutated state. -/
def analyzePacketRun (cfg : Config) (modelName : String) (ml : Option MLVerdict)
    (st : SourceState) (pkt : Packet) : FinalResult × SourceState :=
  let pr := detectPortScan cfg st pkt
  (analyzePacket modelName ml pr.1 (heuristicClassify pr.2), pr.2)

/-! ## The predicted label is never the empty string

`pred_class_idx` is an integer, so `str(...)` of it is non-empty; hence
`_get_severity_from_attack_type` never takes its LOW branch on the fusion
path. -/

/-- `Nat.toDigitsCore` never shrinks its accumulator. -/
theorem toDigitsCore_length_le (b : Nat) :
    ∀ (fuel n : Nat) (ds : List Char),
      ds.length ≤ (Nat.toDigitsCore b fuel n ds).length := by
  intro fuel
  induction fuel with
  | zero => intro n ds; simp [Nat.toDigitsCore]
  | succ f ih =>
    intro n ds
    simp only [Nat.toDigitsCore]
    by_cases h : n / b = 0
    · rw [if_pos h]
      simp
    · rw [if_neg h]
      calc ds.length ≤ (Nat.digitChar (n % b) :: ds).length := by simp
        _ ≤ _ := ih (n / b) _

/-- `Nat.toDigits` produces at least one digit. -/
theorem toDigits_length_pos (n : Nat) : 0 < (Nat.toDigits 10 n).length := by
  show 0 < (Nat.toDigitsCore 10 (n + 1) n []).length
  simp only [Nat.toDigitsCore]
  by_cases h : n / 10 = 0
  · rw [if_pos h]
    simp
  · rw [if_neg h]
    calc 0 < (Nat.digitChar (n % 10) :: []).length := by simp
      _ ≤ _ := toDigitsCore_length_le 10 n (n / 10) _

/-- `str(n)` of a natural number is never the empty string. -/
theorem natRepr_ne_empty (n : Nat) : Nat.repr n ≠ "" := by
  intro h
  have hd : (Nat.toDigits 10 n) = [] := by
    have := congrArg String.data h
    simpa [Nat.repr, List.asString] using this
  have := toDigits_length_pos n
  rw [hd] at this
  simp at this

/-- The fused predicted label is never empty. -/
theorem mlPredLabel_ne_empty (v : MLVerdict) : mlPredLabel v ≠ "" := by
  cases hv : v.predClass with
  | none =>
    simp only [mlPredLabel, hv]
    exact natRepr_ne_empty _
  | some s =>
    simp only [mlPredLabel, hv]
    by_cases hs : s = ""
    · rw [if_pos hs]
      exact natRepr_ne_empty _
    · rw [if_neg hs]
      exact hs

/-! ## C1 — classifier priority -/

/-- C1: a present, non-benign classifier verdict at confidence ≥ 0.3 wins
outright: the result is a threat carrying the classifier's label and
confidence, the severity from the fixed lookup table (default MEDIUM —
the LOW branch for empty labels is unreachable since the label is never
empty), and the model name as attribution — for *every* value of the
behavioral scan result and heuristic result, in particular when the
behavioral detector simultaneously reports a threat. -/
theorem classifier_priority (modelName : String) (v : MLVerdict)
    (scan : ScanResult) (heuristic : Option HeuristicResult)
    (hb : isBenignLabel (mlPredLabel v) = false) (hc : 0.3 ≤ v.confidence) :
    analyzePacket modelName (some v) scan heuristic =
      { threat_detected := true, attack_type := some (mlPredLabel v),
        attack_label := some (mlPredLabel v), confidence := v.confidence,
        severity := (severityMap.lookup (strUpper (mlPredLabel v))).getD "MEDIUM",
        model_used := some modelName,
        recommendation := some (modelName ++ " detected " ++ mlPredLabel v ++
          ". Investigate and apply IDS policy based on attack type.") } := by
  simp only [analyzePacket]
  rw [if_pos ⟨hb, hc⟩]
  simp only [getSeverityFromAttackType, if_neg (mlPredLabel_ne_empty v)]

/-- A behavioral scan result reporting a detected vertical scan, used to
instantiate the fusion theorems. -/
def wScanThreat : ScanResult :=
  { threat_detected := true, attack_type := some "VERTICAL_SCAN",
    confidence := 0.95, severity := "HIGH", source_ip := "198.51.100.7",
    destination_ip := "203.0.113.9", unique_ports_accessed := 10,
    connection_rate := 10, time_window := 1,
    recommended_action :=
      some "Block source IP. Enable port knocking. Implement rate limiting." }

/-- Witness for C1: a `DoS` verdict at confidence 1/2 beats a
simultaneous vertical-scan finding; attribution is the classifier's model
name. -/
theorem classifier_priority_witness :
    analyzePacket "CICIDS2017_5class_model" (some ⟨some "DoS", 0, 1/2⟩)
        wScanThreat none =
      { threat_detected := true,
        attack_type := some (mlPredLabel ⟨some "DoS", 0, 1/2⟩),
        attack_label := some (mlPredLabel ⟨some "DoS", 0, 1/2⟩),
        confidence := (1 : ℚ)/2,
        severity := (severityMap.lookup
          (strUpper (mlPredLabel ⟨some "DoS", 0, 1/2⟩))).getD "MEDIUM",
        model_used := some "CICIDS2017_5class_model",
        recommendation := some ("CICIDS2017_5class_model" ++ " detected " ++
          mlPredLabel ⟨some "DoS", 0, 1/2⟩ ++
          ". Investigate and apply IDS policy based on attack type.") } :=
  classifier_priority "CICIDS2017_5class_model" ⟨some "DoS", 0, 1/2⟩
    wScanThreat none (by decide) (by norm_num)

/-! ## C2 — behavioral fallback -/

/-- C2: when the classifier verdict is absent, or present but benign
(aliased label or confidence below 0.3), a behavioral finding is reported
as the threat, carrying the finding's attack type, confidence, severity
and recommended action, attributed to the port-scan detector; moreover
the behavioral detector's state update happens on every call, independent
of the classifier verdict (it is never short-circuited). -/
theorem behavioral_fallback (modelName : String) (ml : Option MLVerdict)
    (scan : ScanResult) (heuristic : Option HeuristicResult)
    (hml : ml = none ∨ ∃ v, ml = some v ∧
      (isBenignLabel (mlPredLabel v) = true ∨ v.confidence < 0.3))
    (hs : scan.threat_detected = true) :
    ((analyzePacket modelName ml scan heuristic).threat_detected = true ∧
     (analyzePacket modelName ml scan heuristic).attack_type = scan.attack_type ∧
     (analyzePacket modelName ml scan heuristic).attack_label = scan.attack_type ∧
     (analyzePacket modelName ml scan heuristic).confidence = scan.confidence ∧
     (analyzePacket modelName ml scan heuristic).severity = scan.severity ∧
     (analyzePacket modelName ml scan heuristic).recommendation =
       scan.recommended_action ∧
     (analyzePacket modelName ml scan heuristic).model_used =
       some "PortScanDetector (backup)") ∧
    (∀ (cfg : Config) (st : SourceState) (pkt : Packet)
        (ml2 : Option MLVerdict) (mn : String),
      (analyzePacketRun cfg mn ml2 st pkt).2 = (detectPortScan cfg st pkt).2) := by
  have hback : ∀ (f : FinalResult) (mlA : Bool),
      backupDetectors f scan heuristic mlA =
        { f with
          threat_detected := true, attack_type := scan.attack_type,
          attack_label := scan.attack_type, confidence := scan.confidence,
          severity := scan.severity, recommendation := scan.recommended_action,
          model_used := some "PortScanDetector (backup)" } := by
    intro f mlA
    unfold backupDetectors
    rw [if_pos hs]
  refine ⟨?_, fun cfg st pkt ml2 mn => rfl⟩
  rcases hml with h | ⟨v, hv, hbc⟩
  · subst h
    simp only [analyzePacket]
    rw [hback]
    exact ⟨rfl, rfl, rfl, rfl, rfl, rfl, rfl⟩
  · subst hv
    simp only [analyzePacket]
    have hcond : ¬ (isBenignLabel (mlPredLabel v) = false ∧ 0.3 ≤ v.confidence) := by
      rintro ⟨h1, h2⟩
      rcases hbc with h3 | h3
      · rw [h3] at h1
        exact absurd h1 (by simp)
      · linarith
    rw [if_neg hcond, hback]
    exact ⟨rfl, rfl, rfl, rfl, rfl, rfl, rfl⟩

/-- Witness for C2: a benign classifier verdict (`BENIGN` at confidence
99/100) together with a vertical-scan finding yields the behavioral
threat with the port-scan detector attribution. -/
theorem behavioral_fallback_witness :
    (analyzePacket "CICIDS2017_5class_model" (some ⟨some "BENIGN", 0, 99/100⟩)
        wScanThreat none).threat_detected = true ∧
    (analyzePacket "CICIDS2017_5class_model" (some ⟨some "BENIGN", 0, 99/100⟩)
        wScanThreat none).attack_type = wScanThreat.attack_type ∧
    (analyzePacket "CICIDS2017_5class_model" (some ⟨some "BENIGN", 0, 99/100⟩)
        wScanThreat none).model_used = some "PortScanDetector (backup)" := by
  have h := behavioral_fallback "CICIDS2017_5class_model"
    (some ⟨some "BENIGN", 0, 99/100⟩) wScanThreat none
    (Or.inr ⟨⟨some "BENIGN", 0, 99/100⟩, rfl, Or.inl (by decide)⟩) rfl
  exact ⟨h.1.1, h.1.2.1, h.1.2.2.2.2.2.2⟩

/-! ## ModelServer request dispatch (`model_server.py`)

`_process_request` (lines 133–158) dispatches a decoded JSON object by
shape.  The feedback path appends the payload to `update_buffer` — a plain
Python list guarded by a lock, with **no capacity check** — and always
replies `{'status': 'queued'}`; the buffer is drained in batches of
`retrain_batch` (default 50) by the background retrainer. -/

/-- A decoded request object, by the discriminators `_process_request`
inspects: the value under `command` (when the key is present), whether a
`label` key is present, the `srcip` field used by the stats command, and
the observation fields used when the payload is analyzed as a packet.
The whole payload is what gets buffered, so `Request` doubles as the
feedback-sample type. -/
structure Request where
  command : Option String
  hasLabel : Bool
  srcipField : Option String
  pkt : Packet
deriving DecidableEq

/-- Python truthiness of `payload.get('command')`: key present with a
non-empty string value. -/
def commandTruthy : Option String → Bool
  | some c => c != ""
  | none => false

/-- The server's replies, by shape.  The statistics payload produced by
`get_port_scan_stats` comes from `get_statistics` and is not modelled
beyond its tag. -/
inductive ServerResponse where
  | statsReply (srcip : Option String)
  | pingReply
  | errorReply (msg : String)
  | queuedReply
  | analysisReply (r : FinalResult)
deriving DecidableEq

/-- `_process_request`: a truthy `command` value dispatches the control
request; otherwise a payload containing `label` is appended to the
feedback buffer and acknowledged `{'status': 'queued'}`; otherwise the
payload is analyzed as a packet (`analyze` stands for the engine call
`self.ids_engine.analyze_packet`, embedded above as `analyzePacket`). -/
def processRequest (analyze : Packet → FinalResult) (buffer : List Request)
    (req : Request) : ServerResponse × List Request :=
  if commandTruthy req.command then
    (match req.command.getD "" with
     | "get_port_scan_stats" => ServerResponse.statsReply req.srcipField
     | "ping" => ServerResponse.pingReply
     | c => ServerResponse.errorReply ("Unknown command: " ++ c), buffer)
  else if req.hasLabel then
    (ServerResponse.queuedReply, buffer ++ [req])
  else
    (ServerResponse.analysisReply (analyze req.pkt), buffer)

/-! ## C4 — the feedback queue is unbounded and never rejects -/

/-- A feedback request: no command key, a `label` key present. -/
def labelReq : Request := ⟨none, true, none, scanPkt 80 (.str "S") "tcp" 0⟩

/-- A feedback buffer already holding 50 samples (the drain batch size,
the only capacity-like constant in the server). -/
def fullBuffer : List Request := List.replicate 50 labelReq

/-- C4 counterexample: with the buffer already holding 50 samples, a
further feedback request is still enqueued (the buffer grows to 51) and
acknowledged `{'status': 'queued'}` — not rejected with
`{'error': 'queue full'}`.  No queue-full reply exists anywhere in the
dispatch: the buffer is unbounded. -/
theorem feedback_queue_full_counterexample :
    processRequest (fun _ => initialFinal) fullBuffer labelReq =
      (ServerResponse.queuedReply, fullBuffer ++ [labelReq]) ∧
    (fullBuffer ++ [labelReq]).length = 51 ∧
    ServerResponse.queuedReply ≠ ServerResponse.errorReply "queue full" := by
  refine ⟨rfl, by simp [fullBuffer], by simp⟩

/-- C4 amended: every feedback request (no truthy command key, `label`
present) is enqueued unconditionally, for **every** buffer state, and the
reply is always `{'status': 'queued'}` — the sample is never dropped and
never rejected, because the buffer has no capacity bound. -/
theorem feedback_always_queued (analyze : Packet → FinalResult)
    (buffer : List Request) (req : Request)
    (hcmd : commandTruthy req.command = false) (hlab : req.hasLabel = true) :
    processRequest analyze buffer req =
      (ServerResponse.queuedReply, buffer ++ [req]) ∧
    (processRequest analyze buffer req).1 ≠
      ServerResponse.errorReply "queue full" := by
  have h : processRequest analyze buffer req =
      (ServerResponse.queuedReply, buffer ++ [req]) := by
    simp [processRequest, hcmd, hlab]
  refine ⟨h, ?_⟩
  rw [h]
  simp

/-- Witness for the amended C4 at the 50-deep buffer. -/
theorem feedback_always_queued_witness :
    processRequest (fun _ => initialFinal) fullBuffer labelReq =
      (ServerResponse.queuedReply, fullBuffer ++ [labelReq]) ∧
    (processRequest (fun _ => initialFinal) fullBuffer labelReq).1 ≠
      ServerResponse.errorReply "queue full" :=
  feedback_always_queued (fun _ => initialFinal) fullBuffer labelReq rfl rfl

/-! ## app.py alert deduplication (`add_threat_detection`, lines 572–605)

The Flask app rate-limits stored detections per
`(attack_type, srcip)` key against the `threat_rate_limiter` dictionary
and the configured window `THREAT_RATE_LIMIT_SECONDS` (default 5,
settable to 1–60). -/

/-- The rate-limiting key `f"{attack_type}_{srcip}"`. -/
def rateKey (attackType srcip : String) : String :=
  attackType ++ "_" ++ srcip

/-- Python dict assignment on an association list: replace the first
binding of the key, else append. -/
def dictInsert (k : String) (v : ℚ) : List (String × ℚ) → List (String × ℚ)
  | [] => [(k, v)]
  | (k', v') :: rest =>
    if k' = k then (k, v) :: rest else (k', v') :: dictInsert k v rest

/-- The opportunistic cleanup on the emit path: delete keys whose
recorded time is more than `2 × limit` in the past. -/
def purgeOld (limit now : ℚ) (m : List (String × ℚ)) : List (String × ℚ) :=
  m.filter (fun kv => decide (now - kv.2 ≤ 2 * limit))

/-- `add_threat_detection`, restricted to its rate-limiting decision and
limiter state: returns whether the detection is stored/emitted together
with the updated limiter.  A suppressed call returns without touching the
limiter; an emitting call records `now` under the key and then purges
stale keys.  (Building the detection record, appending it to the global
bounded list and the WebSocket emission are the side effects of the emit
path and are not modelled; a falsy result returns `None` immediately.) -/
def addThreatDetection (limit : ℚ) (m : List (String × ℚ)) (now : ℚ)
    (attackType srcip : String) (threatDetected : Bool) :
    Bool × List (String × ℚ) :=
  if threatDetected then
    let k := rateKey attackType srcip
    let suppressed :=
      match m.lookup k with
      | some t => decide (now - t < limit)
      | none => false
    if suppressed then (false, m)
    else (true, purgeOld limit now (dictInsert k now m))
  else (false, m)

/-- Looking up the key of the front binding. -/
theorem lookup_cons_self {β : Type} (k : String) (v : β) (rest : List (String × β)) :
    List.lookup k ((k, v) :: rest) = some v := by
  simp [List.lookup]

/-- Looking up past a front binding with a different key. -/
theorem lookup_cons_ne {β : Type} {k k' : String} (hkk : (k == k') = false)
    (v : β) (rest : List (String × β)) :
    List.lookup k ((k', v) :: rest) = List.lookup k rest := by
  simp [List.lookup, hkk]

/-- After an emitting call, the key is bound to `now` (it survives the
purge since it is 0 seconds old). -/
theorem lookup_purge_insert (limit now : ℚ) (hl : 0 ≤ limit) (k : String) :
    ∀ m : List (String × ℚ),
      (purgeOld limit now (dictInsert k now m)).lookup k = some now := by
  intro m
  induction m with
  | nil =>
    simp only [purgeOld, dictInsert, List.filter_cons, List.filter_nil,
      decide_eq_true_eq]
    rw [if_pos (show now - now ≤ 2 * limit by linarith)]
    exact lookup_cons_self k now []
  | cons hd rest ih =>
    obtain ⟨k', v'⟩ := hd
    simp only [purgeOld] at ih
    by_cases hk : k' = k
    · simp only [purgeOld, dictInsert, if_pos hk, List.filter_cons,
        decide_eq_true_eq]
      rw [if_pos (show now - now ≤ 2 * limit by linarith)]
      exact lookup_cons_self k now _
    · simp only [purgeOld, dictInsert, if_neg hk, List.filter_cons,
        decide_eq_true_eq]
      by_cases hp : now - v' ≤ 2 * limit
      · rw [if_pos hp,
          lookup_cons_ne (beq_eq_false_iff_ne.mpr (fun h => hk h.symm)) v' _]
        exact ih
      · rw [if_neg hp]
        exact ih

/-! ## C8 — alert deduplication -/

/-- C8: for a threat result, (1) a recorded emission for the key less
than `limit` seconds old suppresses the alert and leaves the limiter —
hence that key's timestamp — unchanged; (2) a recorded emission at least
`limit` seconds old leads to emission with the key re-recorded at `now`;
(3) an unrecorded key leads to emission with the key recorded at `now`;
consequently (4) of two identical threat results within `limit` seconds
the second is suppressed with the limiter unchanged, and (5) one arriving
once `limit` seconds have elapsed is emitted again. -/
theorem dedup_rate_limit (limit now : ℚ) (m : List (String × ℚ))
    (atk src : String) (hl : 0 ≤ limit) :
    (∀ t, m.lookup (rateKey atk src) = some t → now - t < limit →
      addThreatDetection limit m now atk src true = (false, m)) ∧
    (∀ t, m.lookup (rateKey atk src) = some t → limit ≤ now - t →
      (addThreatDetection limit m now atk src true).1 = true ∧
      ((addThreatDetection limit m now atk src true).2).lookup
        (rateKey atk src) = some now) ∧
    (m.lookup (rateKey atk src) = none →
      (addThreatDetection limit m now atk src true).1 = true ∧
      ((addThreatDetection limit m now atk src true).2).lookup
        (rateKey atk src) = some now) ∧
    (∀ n2, m.lookup (rateKey atk src) = none → n2 - now < limit →
      addThreatDetection limit
          (addThreatDetection limit m now atk src true).2 n2 atk src true =
        (false, (addThreatDetection limit m now atk src true).2)) ∧
    (∀ n3, m.lookup (rateKey atk src) = none → limit ≤ n3 - now →
      (addThreatDetection limit
          (addThreatDetection limit m now atk src true).2 n3 atk src true).1 =
        true) := by
  have hsupp : ∀ (m' : List (String × ℚ)) (now' t' : ℚ),
      m'.lookup (rateKey atk src) = some t' → now' - t' < limit →
      addThreatDetection limit m' now' atk src true = (false, m') := by
    intro m' now' t' hm hlt
    simp only [addThreatDetection, hm, decide_eq_true hlt, if_true]
  have hemitSome : ∀ (m' : List (String × ℚ)) (now' t' : ℚ),
      m'.lookup (rateKey atk src) = some t' → limit ≤ now' - t' →
      addThreatDetection limit m' now' atk src true =
        (true, purgeOld limit now' (dictInsert (rateKey atk src) now' m')) := by
    intro m' now' t' hm hge
    simp only [addThreatDetection, hm, decide_eq_false (not_lt.mpr hge),
      Bool.false_eq_true, if_false, if_true]
  have hemitNone : ∀ (m' : List (String × ℚ)) (now' : ℚ),
      m'.lookup (rateKey atk src) = none →
      addThreatDetection limit m' now' atk src true =
        (true, purgeOld limit now' (dictInsert (rateKey atk src) now' m')) := by
    intro m' now' hm
    simp only [addThreatDetection, hm, Bool.false_eq_true, if_false, if_true]
  refine ⟨fun t hm hlt => hsupp m now t hm hlt, fun t hm hge => ?_, fun hm => ?_,
    fun n2 hm hlt => ?_, fun n3 hm hge => ?_⟩
  · rw [hemitSome m now t hm hge]
    exact ⟨rfl, lookup_purge_insert limit now hl _ m⟩
  · rw [hemitNone m now hm]
    exact ⟨rfl, lookup_purge_insert limit now hl _ m⟩
  · have hrec : ((addThreatDetection limit m now atk src true).2).lookup
        (rateKey atk src) = some now := by
      rw [hemitNone m now hm]
      exact lookup_purge_insert limit now hl _ m
    exact hsupp _ n2 now hrec hlt
  · have hrec : ((addThreatDetection limit m now atk src true).2).lookup
        (rateKey atk src) = some now := by
      rw [hemitNone m now hm]
      exact lookup_purge_insert limit now hl _ m
    rw [hemitSome _ n3 now hrec hge]

/-- Witness for C8 at the default 5-second window: from an empty limiter,
an alert at time 0 is emitted and recorded; an identical one at time 3 is
suppressed with the limiter unchanged; one at time 5 is emitted again. -/
theorem dedup_rate_limit_witness :
    ((addThreatDetection 5 [] 0 "VERTICAL_SCAN" "198.51.100.7" true).1 = true ∧
     ((addThreatDetection 5 [] 0 "VERTICAL_SCAN" "198.51.100.7" true).2).lookup
       (rateKey "VERTICAL_SCAN" "198.51.100.7") = some 0) ∧
    addThreatDetection 5
        (addThreatDetection 5 [] 0 "VERTICAL_SCAN" "198.51.100.7" true).2 3
        "VERTICAL_SCAN" "198.51.100.7" true =
      (false, (addThreatDetection 5 [] 0 "VERTICAL_SCAN" "198.51.100.7" true).2) ∧
    (addThreatDetection 5
        (addThreatDetection 5 [] 0 "VERTICAL_SCAN" "198.51.100.7" true).2 5
        "VERTICAL_SCAN" "198.51.100.7" true).1 = true := by
  have h := dedup_rate_limit 5 0 [] "VERTICAL_SCAN" "198.51.100.7" (by norm_num)
  exact ⟨h.2.2.1 rfl, h.2.2.2.1 3 rfl (by norm_num), h.2.2.2.2 5 rfl (by norm_num)⟩

/-! ## Attack categories and the automatic rule matcher
(`attack_categories.py`)

`AttackSubcategory.CATEGORIES` (lines 29–295) is a registry of named
attack subcategories with per-rule data; `AutomaticDetector` (lines
336–492) evaluates enabled subcategories against a single packet with
fixed weights.  Only the rule keys that `_check_attack_rules` actually
reads are given structure (`tcp_flags`, `connection_rate`, `protocol`,
`dst_port`, `unique_ports`, `confidence_threshold`); the remaining keys of
each rule dictionary are never consulted by the matcher and are recorded
by name in `otherRules`. -/

/-- A `dst_port` rule value: a single port or a list of ports. -/
inductive PortSpec where
  | one (n : Nat)
  | many (ns : List Nat)
deriving DecidableEq

/-- The matcher-relevant contents of a `detection_rules` dictionary. -/
structure RuleSpec where
  tcpFlags : Option (List String) := none
  connectionRate : Option String := none
  protocol : Option String := none
  dstPort : Option PortSpec := none
  uniquePorts : Option String := none
  otherRules : List String := []
  threshold : ℚ
deriving DecidableEq

/-- One registry entry: display data plus detection rules. -/
structure SubcatInfo where
  name : String
  description : String
  category : String
  severity : String
  autoResponse : String
  rules : RuleSpec
deriving DecidableEq

/-- The packet fields `_check_attack_rules` reads. -/
structure RMPacket where
  flags : Nat
  protocol : String
  dstPort : Nat
deriving DecidableEq

/-- A detection returned by `_check_attack_rules` (lines 430–439). -/
structure RuleDetection where
  attackType : String
  attackName : String
  category : String
  confidence : ℚ
  severity : String
  matchedRules : List String
  autoResponse : Option String
  description : String
deriving DecidableEq

/-- The flag-bit dictionary of `_check_tcp_flags` (lines 445–455). -/
def ruleFlagMap : List (String × Nat) :=
  [("SYN", 0x02), ("ACK", 0x10), ("FIN", 0x01), ("RST", 0x04), ("PSH", 0x08),
   ("URG", 0x20), ("ECE", 0x40), ("CWR", 0x80), ("NULL", 0x00)]

/-- The multi-flag loop of `_check_tcp_flags`: every recognised required
flag's bit must be set (unrecognised names are skipped; `NULL`'s zero mask
always fails here). -/
def flagsAllPresent (pf : Nat) : List String → Bool
  | [] => true
  | r :: rs =>
    match ruleFlagMap.lookup r with
    | some b => if pf &&& b = 0 then false else flagsAllPresent pf rs
    | none => flagsAllPresent pf rs

/-- `_check_tcp_flags` (lines 443–468): a single recognised required flag
is an exact equality test against its mask; otherwise all recognised
required flags must be present. -/
def checkTcpFlags (pf : Nat) (req : List String) : Bool :=
  match req with
  | [r] =>
    match ruleFlagMap.lookup r with
    | some b => pf == b
    | none => flagsAllPresent pf [r]
  | _ => flagsAllPresent pf req

/-- `_check_connection_rate` (lines 470–474): no rate is measured — the
check is true whenever the rule's textual descriptor contains `>` or
`high`.  (The packet argument is accepted and ignored, as in the
source.) -/
def checkConnectionRate (_pkt : RMPacket) (rateRule : String) : Bool :=
  strContains rateRule ">" || strContains (strLower rateRule) "high"

/-- The `dst_port` check (lines 408–417): list membership or equality. -/
def checkDstPort (dp : Nat) : PortSpec → Bool
  | .many ns => ns.contains dp
  | .one n => dp == n

/-- The accumulated `confidence` of `_check_attack_rules`: +0.30 for a
TCP-flags match, +0.25 for the rate descriptor, +0.20 for the protocol,
+0.15 for the destination port, +0.10 unconditionally when the rule has a
`unique_ports` key. -/
def ruleConfidence (pkt : RMPacket) (r : RuleSpec) : ℚ :=
  (match r.tcpFlags with
   | some req => if checkTcpFlags pkt.flags req then 0.3 else 0
   | none => 0) +
  (match r.connectionRate with
   | some rr => if checkConnectionRate pkt rr then 0.25 else 0
   | none => 0) +
  (match r.protocol with
   | some p => if strUpper pkt.protocol = strUpper p then 0.2 else 0
   | none => 0) +
  (match r.dstPort with
   | some ps => if checkDstPort pkt.dstPort ps then 0.15 else 0
   | none => 0) +
  (match r.uniquePorts with
   | some _ => 0.1
   | none => 0)

/-- The `matched_rules` list accumulated alongside the confidence. -/
def matchedRulesList (pkt : RMPacket) (r : RuleSpec) : List String :=
  (match r.tcpFlags with
   | some req => if checkTcpFlags pkt.flags req then ["tcp_flags"] else []
   | none => []) ++
  (match r.connectionRate with
   | some rr => if checkConnectionRate pkt rr then ["connection_rate"] else []
   | none => []) ++
  (match r.protocol with
   | some p => if strUpper pkt.protocol = strUpper p then ["protocol"] else []
   | none => []) ++
  (match r.dstPort with
   | some ps => if checkDstPort pkt.dstPort ps then ["dst_port"] else []
   | none => []) ++
  (match r.uniquePorts with
   | some _ => ["unique_ports_pattern"]
   | none => [])

/-- `_check_attack_rules` (lines 374–441): emit a detection exactly when
the summed weights reach the rule's `confidence_threshold`.
(`auto_response` is the registry's value, as stored by
`enable_attack_detection`.) -/
def checkAttackRules (pkt : RMPacket) (id : String) (info : SubcatInfo) :
    Option RuleDetection :=
  let conf := ruleConfidence pkt info.rules
  if info.rules.threshold ≤ conf then
    some { attackType := id, attackName := info.name, category := info.category,
           confidence := conf, severity := info.severity,
           matchedRules := matchedRulesList pkt info.rules,
           autoResponse := some info.autoResponse,
           description := info.description }
  else none

/-- Registry entry `SYN_SCAN` (lines 31–42). -/
def synScanRule : SubcatInfo :=
  { name := "TCP SYN Scan", description := "Stealth port scan using SYN packets",
    category := "Port Scan", severity := "HIGH",
    autoResponse := "block_ip_temporarily",
    rules := { tcpFlags := some ["SYN"], connectionRate := some "> 10/second",
               uniquePorts := some "> 5", threshold := 0.8 } }

/-- Registry entry `NULL_SCAN` (lines 43–53). -/
def nullScanRule : SubcatInfo :=
  { name := "TCP NULL Scan", description := "Port scan with no TCP flags set",
    category := "Port Scan", severity := "HIGH",
    autoResponse := "block_ip_immediately",
    rules := { tcpFlags := some ["NULL"], connectionRate := some "> 5/second",
               threshold := 0.9 } }

/-- Registry entry `XMAS_SCAN` (lines 54–64). -/
def xmasScanRule : SubcatInfo :=
  { name := "TCP XMAS Scan", description := "Port scan with FIN, PSH, URG flags",
    category := "Port Scan", severity := "HIGH",
    autoResponse := "block_ip_temporarily",
    rules := { tcpFlags := some ["FIN", "PSH", "URG"],
               connectionRate := some "> 5/second", threshold := 0.85 } }

/-- Registry entry `FIN_SCAN` (lines 65–75). -/
def finScanRule : SubcatInfo :=
  { name := "TCP FIN Scan", description := "Stealth port scan using FIN packets",
    category := "Port Scan", severity := "HIGH",
    autoResponse := "block_ip_temporarily",
    rules := { tcpFlags := some ["FIN"], connectionRate := some "> 5/second",
               threshold := 0.8 } }

/-- Registry entry `UDP_SCAN` (lines 76–87). -/
def udpScanRule : SubcatInfo :=
  { name := "UDP Port Scan", description := "Scanning UDP ports for open services",
    category := "Port Scan", severity := "MEDIUM",
    autoResponse := "monitor_and_alert",
    rules := { protocol := some "UDP", connectionRate := some "> 10/second",
               uniquePorts := some "> 10", threshold := 0.7 } }

/-- Registry entry `VERTICAL_SCAN` (lines 88–99). -/
def verticalScanRule : SubcatInfo :=
  { name := "Vertical Port Scan",
    description := "Scanning multiple ports on single target",
    category := "Port Scan", severity := "HIGH",
    autoResponse := "block_ip_temporarily",
    rules := { uniquePorts := some "> 20",
               otherRules := ["single_target", "time_window"],
               threshold := 0.75 } }

/-- Registry entry `HORIZONTAL_SCAN` (lines 100–111). -/
def horizontalScanRule : SubcatInfo :=
  { name := "Horizontal Port Scan",
    description := "Scanning single port across multiple targets",
    category := "Port Scan", severity := "CRITICAL",
    autoResponse := "block_ip_immediately",
    rules := { otherRules := ["single_port", "unique_targets", "time_window"],
               threshold := 0.8 } }

/-- Registry entry `SYN_FLOOD` (lines 115–126). -/
def synFloodRule : SubcatInfo :=
  { name := "SYN Flood Attack",
    description := "Overwhelming target with SYN packets",
    category := "Denial of Service", severity := "CRITICAL",
    autoResponse := "block_ip_immediately",
    rules := { tcpFlags := some ["SYN"], connectionRate := some "> 100/second",
               otherRules := ["no_ack_response"], threshold := 0.9 } }

/-- Registry entry `UDP_FLOOD` (lines 127–137). -/
def udpFloodRule : SubcatInfo :=
  { name := "UDP Flood Attack",
    description := "Overwhelming target with UDP packets",
    category := "Denial of Service", severity := "CRITICAL",
    autoResponse := "block_ip_immediately",
    rules := { protocol := some "UDP", otherRules := ["packet_rate"],
               threshold := 0.85 } }

/-- Registry entry `ICMP_FLOOD` (lines 138–148). -/
def icmpFloodRule : SubcatInfo :=
  { name := "ICMP Flood Attack", description := "Ping flood or ICMP packet storm",
    category := "Denial of Service", severity := "HIGH",
    autoResponse := "block_ip_temporarily",
    rules := { protocol := some "ICMP", otherRules := ["packet_rate"],
               threshold := 0.8 } }

/-- Registry entry `HTTP_FLOOD` (lines 149–160). -/
def httpFloodRule : SubcatInfo :=
  { name := "HTTP Flood Attack",
    description := "Overwhelming web server with HTTP requests",
    category := "Denial of Service", severity := "HIGH",
    autoResponse := "rate_limit_requests",
    rules := { protocol := some "TCP", dstPort := some (.many [80, 443, 8080]),
               otherRules := ["request_rate"], threshold := 0.8 } }

/-- Registry entry `SSH_BRUTE_FORCE` (lines 164–176). -/
def sshBruteRule : SubcatInfo :=
  { name := "SSH Brute Force", description := "Attempting to guess SSH credentials",
    category := "Brute Force", severity := "HIGH",
    autoResponse := "block_ip_after_threshold",
    rules := { dstPort := some (.one 22), protocol := some "TCP",
               connectionRate := some "> 5/second",
               otherRules := ["failed_attempts"], threshold := 0.85 } }

/-- Registry entry `FTP_BRUTE_FORCE` (lines 177–189). -/
def ftpBruteRule : SubcatInfo :=
  { name := "FTP Brute Force", description := "Attempting to guess FTP credentials",
    category := "Brute Force", severity := "HIGH",
    autoResponse := "block_ip_after_threshold",
    rules := { dstPort := some (.one 21), protocol := some "TCP",
               connectionRate := some "> 10/second",
               otherRules := ["failed_attempts"], threshold := 0.8 } }

/-- Registry entry `RDP_BRUTE_FORCE` (lines 190–202). -/
def rdpBruteRule : SubcatInfo :=
  { name := "RDP Brute Force", description := "Attempting to guess RDP credentials",
    category := "Brute Force", severity := "CRITICAL",
    autoResponse := "block_ip_immediately",
    rules := { dstPort := some (.one 3389), protocol := some "TCP",
               connectionRate := some "> 3/second",
               otherRules := ["failed_attempts"], threshold := 0.9 } }

/-- Registry entry `WEB_BRUTE_FORCE` (lines 203–215). -/
def webBruteRule : SubcatInfo :=
  { name := "Web Application Brute Force",
    description := "Attempting to guess web credentials",
    category := "Brute Force", severity := "MEDIUM",
    autoResponse := "rate_limit_and_alert",
    rules := { dstPort := some (.many [80, 443, 8080]), protocol := some "TCP",
               otherRules := ["http_methods", "login_attempts"],
               threshold := 0.75 } }

/-- Registry entry `C2_COMMUNICATION` (lines 219–230). -/
def c2CommRule : SubcatInfo :=
  { name := "Command & Control Communication",
    description := "Malware communicating with C2 server",
    category := "Malware Communication", severity := "CRITICAL",
    autoResponse := "block_domain_and_ip",
    rules := { otherRules := ["suspicious_domains", "periodic_connections",
                 "encrypted_traffic"], threshold := 0.8 } }

/-- Registry entry `BOTNET_ACTIVITY` (lines 231–242). -/
def botnetRule : SubcatInfo :=
  { name := "Botnet Activity",
    description := "Infected system participating in botnet",
    category := "Malware Communication", severity := "CRITICAL",
    autoResponse := "quarantine_system",
    rules := { otherRules := ["multiple_outbound_connections", "similar_patterns",
                 "high_connection_rate"], threshold := 0.85 } }

/-- Registry entry `RANSOMWARE` (lines 243–254). -/
def ransomwareRule : SubcatInfo :=
  { name := "Ransomware Activity",
    description := "Ransomware encrypting files and communicating",
    category := "Malware Communication", severity := "CRITICAL",
    autoResponse := "isolate_system_immediately",
    rules := { otherRules := ["file_encryption_patterns", "ransom_notes",
                 "payment_requests"], threshold := 0.95 } }

/-- Registry entry `DNS_ENUMERATION` (lines 258–269). -/
def dnsEnumRule : SubcatInfo :=
  { name := "DNS Enumeration",
    description := "Gathering information through DNS queries",
    category := "Reconnaissance", severity := "MEDIUM",
    autoResponse := "monitor_and_log",
    rules := { otherRules := ["dns_queries", "subdomain_bruteforce",
                 "zone_transfers"], threshold := 0.7 } }

/-- Registry entry `NETWORK_DISCOVERY` (lines 270–281). -/
def netDiscoveryRule : SubcatInfo :=
  { name := "Network Discovery",
    description := "Scanning network to discover hosts and services",
    category := "Reconnaissance", severity := "LOW",
    autoResponse := "monitor_and_log",
    rules := { otherRules := ["arp_scanning", "ping_sweeps",
                 "service_fingerprinting"], threshold := 0.6 } }

/-- Registry entry `OS_FINGERPRINTING` (lines 282–293). -/
def osFingerprintRule : SubcatInfo :=
  { name := "OS Fingerprinting",
    description := "Attempting to identify operating systems",
    category := "Reconnaissance", severity := "LOW",
    autoResponse := "monitor_and_log",
    rules := { otherRules := ["ttl_analysis", "window_size_analysis",
                 "tcp_options_analysis"], threshold := 0.65 } }

/-- The shipped registry `AttackSubcategory.CATEGORIES`, flattened to
(subcategory id, entry) in source order. -/
def ATTACK_REGISTRY : List (String × SubcatInfo) :=
  [("SYN_SCAN", synScanRule), ("NULL_SCAN", nullScanRule),
   ("XMAS_SCAN", xmasScanRule), ("FIN_SCAN", finScanRule),
   ("UDP_SCAN", udpScanRule), ("VERTICAL_SCAN", verticalScanRule),
   ("HORIZONTAL_SCAN", horizontalScanRule), ("SYN_FLOOD", synFloodRule),
   ("UDP_FLOOD", udpFloodRule), ("ICMP_FLOOD", icmpFloodRule),
   ("HTTP_FLOOD", httpFloodRule), ("SSH_BRUTE_FORCE", sshBruteRule),
   ("FTP_BRUTE_FORCE", ftpBruteRule), ("RDP_BRUTE_FORCE", rdpBruteRule),
   ("WEB_BRUTE_FORCE", webBruteRule), ("C2_COMMUNICATION", c2CommRule),
   ("BOTNET_ACTIVITY", botnetRule), ("RANSOMWARE", ransomwareRule),
   ("DNS_ENUMERATION", dnsEnumRule), ("NETWORK_DISCOVERY", netDiscoveryRule),
   ("OS_FINGERPRINTING", osFingerprintRule)]

/-- `AutomaticDetector.analyze_packet` (lines 362–372): check every
enabled subcategory against the packet.  `enable_attack_detection` only
enables ids present in the registry and stores exactly the registry's
rules and response action, so the detector's `detection_rules[id]` is the
registry lookup. -/
def autoAnalyzePacket (enabled : List String) (pkt : RMPacket) :
    List RuleDetection :=
  enabled.filterMap (fun id =>
    match ATTACK_REGISTRY.lookup id with
    | some info => checkAttackRules pkt id info
    | none => none)

/-! ## C5 — the rule matcher can never reach any threshold -/

/-- The most confidence a rule's present keys can ever award. -/
def maxAward (r : RuleSpec) : ℚ :=
  (if r.tcpFlags.isSome then (0.3 : ℚ) else 0) +
  (if r.connectionRate.isSome then (0.25 : ℚ) else 0) +
  (if r.protocol.isSome then (0.2 : ℚ) else 0) +
  (if r.dstPort.isSome then (0.15 : ℚ) else 0) +
  (if r.uniquePorts.isSome then (0.1 : ℚ) else 0)

/-- The accumulated confidence never exceeds `maxAward`. -/
theorem ruleConfidence_le_maxAward (pkt : RMPacket) (r : RuleSpec) :
    ruleConfidence pkt r ≤ maxAward r := by
  unfold ruleConfidence maxAward
  gcongr ?_ + ?_ + ?_ + ?_ + ?_
  · cases r.tcpFlags with
    | none => simp
    | some req =>
      show (if checkTcpFlags pkt.flags req = true then (0.3 : ℚ) else 0) ≤ 0.3
      split_ifs <;> norm_num
  · cases r.connectionRate with
    | none => simp
    | some rr =>
      show (if checkConnectionRate pkt rr = true then (0.25 : ℚ) else 0) ≤ 0.25
      split_ifs <;> norm_num
  · cases r.protocol with
    | none => simp
    | some p =>
      show (if strUpper pkt.protocol = strUpper p then (0.2 : ℚ) else 0) ≤ 0.2
      split_ifs <;> norm_num
  · cases r.dstPort with
    | none => simp
    | some ps =>
      show (if checkDstPort pkt.dstPort ps = true then (0.15 : ℚ) else 0) ≤ 0.15
      split_ifs <;> norm_num
  · cases r.uniquePorts with
    | none => simp
    | some u => show (0.1 : ℚ) ≤ 0.1; exact le_refl _

/-- In the shipped registry, every rule's threshold strictly exceeds the
most its keys can award. -/
theorem registry_thresholds_unreachable :
    ∀ p ∈ ATTACK_REGISTRY, maxAward p.2.rules < p.2.rules.threshold := by
  intro p hp
  fin_cases hp <;>
    norm_num [maxAward, synScanRule, nullScanRule, xmasScanRule, finScanRule,
      udpScanRule, verticalScanRule, horizontalScanRule, synFloodRule,
      udpFloodRule, icmpFloodRule, httpFloodRule, sshBruteRule, ftpBruteRule,
      rdpBruteRule, webBruteRule, c2CommRule, botnetRule, ransomwareRule,
      dnsEnumRule, netDiscoveryRule, osFingerprintRule]

/-- A successful registry lookup is a registry membership. -/
theorem lookup_mem_pair {β : Type} (k : String) (v : β) :
    ∀ l : List (String × β), l.lookup k = some v → (k, v) ∈ l := by
  intro l
  induction l with
  | nil => intro h; simp [List.lookup] at h
  | cons hd rest ih =>
    obtain ⟨k', v'⟩ := hd
    intro h
    by_cases hk : k = k'
    · subst hk
      simp [List.lookup] at h
      subst h
      exact List.mem_cons_self _ _
    · rw [lookup_cons_ne (beq_eq_false_iff_ne.mpr hk) v' rest] at h
      exact List.mem_cons_of_mem _ (ih h)

/-- C5: for every packet and every subcategory in the shipped registry,
`_check_attack_rules` returns no detection — the awardable weights
(0.30 + 0.25 + 0.20 + 0.15 + 0.10, restricted to the keys each rule
declares) always sum below the rule's `confidence_threshold` — and hence
`AutomaticDetector.analyze_packet` returns the empty detection list for
every packet and every set of enabled attack types. -/
theorem rule_matcher_never_fires :
    (∀ (pkt : RMPacket), ∀ p ∈ ATTACK_REGISTRY,
      checkAttackRules pkt p.1 p.2 = none) ∧
    (∀ (enabled : List String) (pkt : RMPacket),
      autoAnalyzePacket enabled pkt = []) := by
  have hmain : ∀ (pkt : RMPacket), ∀ p ∈ ATTACK_REGISTRY,
      checkAttackRules pkt p.1 p.2 = none := by
    intro pkt p hp
    unfold checkAttackRules
    rw [if_neg]
    exact not_le.mpr (lt_of_le_of_lt (ruleConfidence_le_maxAward pkt p.2.rules)
      (registry_thresholds_unreachable p hp))
  refine ⟨hmain, ?_⟩
  intro enabled pkt
  unfold autoAnalyzePacket
  rw [List.filterMap_eq_nil_iff]
  intro id _hid
  cases hl : ATTACK_REGISTRY.lookup id with
  | none => rfl
  | some info =>
    show checkAttackRules pkt id info = none
    exact hmain pkt (id, info) (lookup_mem_pair id info ATTACK_REGISTRY hl)

/-- Witness for C5: a SYN packet to port 22 triggers neither the
`SYN_SCAN` rule nor any enabled rule set. -/
theorem rule_matcher_never_fires_witness :
    checkAttackRules ⟨2, "tcp", 22⟩ "SYN_SCAN" synScanRule = none ∧
    autoAnalyzePacket ["SYN_SCAN", "SSH_BRUTE_FORCE"] ⟨2, "tcp", 22⟩ = [] :=
  ⟨rule_matcher_never_fires.1 ⟨2, "tcp", 22⟩ ("SYN_SCAN", synScanRule)
      (List.mem_cons_self _ _),
   rule_matcher_never_fires.2 ["SYN_SCAN", "SSH_BRUTE_FORCE"] ⟨2, "tcp", 22⟩⟩
